import Mathlib

/-
A verification development for the stylesheet/theme resolution module of
qTox (src/widget/style.cpp).  The module's operations are embedded as pure
Lean functions over an explicit state: the mutable globals of the C++ file
(the color palette array, the placeholder dictionary, the stylesheet cache
and the image-existence cache) become fields of `Style.StyleState`, and the
ambient environment (filesystem contents, the standard-paths lookup and the
platform default font size) becomes an explicit `FS` record.  Fallible
operations return the degraded values the C++ produces (empty strings),
together with the list of warnings logged on the way.
-/

set_option maxRecDepth 10000

/-- Model of Qt's `QColor` restricted to what the module uses: a validity
flag (default-constructed `QColor()` is invalid) and 8-bit RGB components. -/
structure QColor where
  valid : Bool
  r : Nat
  g : Nat
  b : Nat
deriving DecidableEq

/-- `QColor()`, the invalid sentinel color. -/
def QColor.invalid : QColor := ⟨false, 0, 0, 0⟩

/-- `QColor("#rrggbb")`: a valid color with the given components. -/
def QColor.rgb (r g b : Nat) : QColor := ⟨true, r, g, b⟩

/-- Lower-case hexadecimal digit. -/
def hexDigit (n : Nat) : Char := "0123456789abcdef".data.getD (n % 16) '0'

/-- Two lower-case hexadecimal digits of a byte. -/
def hex2 (n : Nat) : String := String.mk [hexDigit ((n % 256) / 16), hexDigit (n % 16)]

/-- Model of `QColor::name()`: the `#rrggbb` hex form. -/
def QColor.name (c : QColor) : String := "#" ++ hex2 c.r ++ hex2 c.g ++ hex2 c.b

/-- Scale all RGB components down by `100/f` (`f ≥ 100`). -/
def scaleDown (c : QColor) (f : Nat) : QColor :=
  ⟨c.valid, c.r * 100 / f, c.g * 100 / f, c.b * 100 / f⟩

/-- Scale all RGB components up by `f/100` (`f ≥ 100`), clamping at 255. -/
def scaleUp (c : QColor) (f : Nat) : QColor :=
  ⟨c.valid, min 255 (c.r * f / 100), min 255 (c.g * f / 100), min 255 (c.b * f / 100)⟩

/-- Modelled from Qt (external library): `QColor::darker(factor)` divides the
HSV value component by `factor/100`, which on the RGB representation amounts
to scaling each component down; a factor below 100 delegates to `lighter`
with factor `10000/factor`, and a factor at most 0 returns the color
unchanged.  Integer division approximates Qt's fixed-point rounding; the
claims proved below depend only on this being a fixed pure function. -/
def QColor.darker (c : QColor) (f : Int) : QColor :=
  if f ≤ 0 then c else if f < 100 then scaleUp c (10000 / f.toNat) else scaleDown c f.toNat

/-- Modelled from Qt (external library): `QColor::lighter(factor)`, dual to
`QColor.darker`. -/
def QColor.lighter (c : QColor) (f : Int) : QColor :=
  if f ≤ 0 then c else if f < 100 then scaleDown c (10000 / f.toNat) else scaleUp c f.toNat

/-- Model of `QFont` restricted to what the module uses.  `pixelSize` stands
for the resolved pixel size that `QFontInfo` would report. -/
structure QFont where
  family : String
  pixelSize : Int
  weight : Nat
deriving DecidableEq

/-- `QFont::Bold` -/
def QFontBold : Nat := 75
/-- `QFont::Normal` -/
def QFontNormal : Nat := 50
/-- `QFont::Light` -/
def QFontLight : Nat := 25

/-- `appFont(pixelSize, weight)` helper from style.cpp: a default-family font
with the given pixel size and weight. -/
def appFont (pixelSize : Int) (weight : Nat) : QFont := ⟨"", pixelSize, weight⟩

/-- `qssifyFont`: renders a font as `<weight*8> <pixelSize>px "<family>"`. -/
def qssifyFont (f : QFont) : String :=
  toString (f.weight * 8) ++ " " ++ toString f.pixelSize ++ "px \x22" ++ f.family ++ "\x22"

/-- The ambient environment of the module: the located user theme directory
(empty when `QStandardPaths::locate` finds none), the readable files (a path
maps to its text when opening for reading succeeds), plain existence checks,
and the platform default font pixel size. -/
structure FS where
  locateThemeFolder : String
  files : String → Option String
  fileExists : String → Bool
  defaultPixelSize : Int

/-- `BuiltinThemePath` constant: path of the theme inside the binary. -/
def BuiltinThemePath : String := ":themes/default/"

-- ## String machinery
-- `QString::replace(QRegularExpression(key % "\\b"), value)` and the
-- `@getImagePath\([^)\s]*\)` scan are modelled character by character.
-- The recursions take a fuel argument (always instantiated with the string
-- length, which each step consumes at least one character of) so that all
-- definitions are structural and evaluate by kernel reduction.

/-- PCRE word character (`\w`), as used by `\b` without Unicode options. -/
def isWordChar (c : Char) : Bool := c.isAlphanum || c == '_'

/-- Whether a word boundary (`\b`) sits before this suffix, given that the
character to the left is a word character (true of the final character of
every dictionary token, which all end in a letter). -/
def wbAfter : List Char → Bool
  | [] => true
  | d :: _ => !isWordChar d

/-- Does `tok` occur as a contiguous substring? -/
def occursSub (tok : List Char) : List Char → Bool
  | [] => tok.isEmpty
  | c :: cs => tok.isPrefixOf (c :: cs) || occursSub tok cs

/-- `occursSub` on strings. -/
def occursSubS (tok s : String) : Bool := occursSub tok.data s.data

/-- One left-to-right pass replacing every match of `tok` followed by a word
boundary with `rep`; replacements are not rescanned, as with
`QString::replace(QRegularExpression, after)`. -/
def replaceWBAux (tok rep : List Char) : Nat → List Char → List Char
  | _, [] => []
  | 0, l => l
  | fuel + 1, c :: cs =>
    if tok.isPrefixOf (c :: cs) && wbAfter (cs.drop (tok.length - 1)) then
      rep ++ replaceWBAux tok rep fuel (cs.drop (tok.length - 1))
    else
      c :: replaceWBAux tok rep fuel cs

/-- Word-boundary replacement on strings. -/
def replaceWBs (tok rep s : String) : String :=
  String.mk (replaceWBAux tok.data rep.data s.data.length s.data)

/-- One left-to-right pass replacing every occurrence of `tok` with `rep`
(plain substring replacement, `QString::replace`/`QString::remove`). -/
def replaceSubAux (tok rep : List Char) : Nat → List Char → List Char
  | _, [] => []
  | 0, l => l
  | fuel + 1, c :: cs =>
    if tok.isPrefixOf (c :: cs) then
      rep ++ replaceSubAux tok rep fuel (cs.drop (tok.length - 1))
    else
      c :: replaceSubAux tok rep fuel cs

/-- Plain substring replacement on strings. -/
def replaceSubS (tok rep s : String) : String :=
  String.mk (replaceSubAux tok.data rep.data s.data.length s.data)

/-- `QString::chop(1)`: drop the final character. -/
def chop1 (s : String) : String := String.mk s.data.dropLast

/-- The literal prefix of the image pseudo-function. -/
def imgTok : List Char := "@getImagePath(".data

/-- Consume `[^)\s]*\)`: the argument characters up to the closing
parenthesis; fails (like the regex) on whitespace or end of input. -/
def takeArg : List Char → Option (List Char × List Char)
  | [] => none
  | c :: cs =>
    if c = ')' then some ([], cs)
    else if c.isWhitespace then none
    else
      match takeArg cs with
      | some (a, r) => some (c :: a, r)
      | none => none

/-- Left-to-right, non-overlapping matches of `@getImagePath\([^)\s]*\)`,
returning each captured argument; a failed attempt advances one character,
a successful one resumes after the closing parenthesis. -/
def findImageCallsAux : Nat → List Char → List (List Char)
  | _, [] => []
  | 0, _ => []
  | fuel + 1, c :: cs =>
    if imgTok.isPrefixOf (c :: cs) then
      match takeArg (cs.drop (imgTok.length - 1)) with
      | some (a, r) => a :: findImageCallsAux fuel r
      | none => findImageCallsAux fuel cs
    else
      findImageCallsAux fuel cs

/-- Image-call scan on strings. -/
def findImageCallsS (s : String) : List String :=
  (findImageCallsAux s.data.length s.data).map String.mk

/-- Membership in a `QStringList`. -/
def memb (x : String) : List String → Bool
  | [] => false
  | y :: ys => if y = x then true else memb x ys

/-- Code-point comparison of character lists (the order behind `QString`
`operator<`, which orders the keys of a `QMap<QString, QString>`). -/
def charListLt : List Char → List Char → Bool
  | [], [] => false
  | [], _ :: _ => true
  | _ :: _, [] => false
  | a :: as, b :: bs =>
    if a.toNat < b.toNat then true
    else if b.toNat < a.toNat then false
    else charListLt as bs

/-- `QString` comparison. -/
def strLt (a b : String) : Bool := charListLt a.data b.data

namespace Style

-- ## Color palette (Style::ColorPalette indices and the static array)

/-- `Style::Green` -/
def Green : Nat := 0
/-- `Style::Yellow` -/
def Yellow : Nat := 1
/-- `Style::Red` -/
def Red : Nat := 2
/-- `Style::Black` -/
def Black : Nat := 3
/-- `Style::DarkGrey` -/
def DarkGrey : Nat := 4
/-- `Style::MediumGrey` -/
def MediumGrey : Nat := 5
/-- `Style::MediumGreyLight` -/
def MediumGreyLight : Nat := 6
/-- `Style::LightGrey` -/
def LightGrey : Nat := 7
/-- `Style::White` -/
def White : Nat := 8
/-- `Style::Orange` -/
def Orange : Nat := 9
/-- `Style::ThemeDark` -/
def ThemeDark : Nat := 10
/-- `Style::ThemeMediumDark` -/
def ThemeMediumDark : Nat := 11
/-- `Style::ThemeMedium` -/
def ThemeMedium : Nat := 12
/-- `Style::ThemeLight` -/
def ThemeLight : Nat := 13

/-- Initial contents of the static `palette[]` array. -/
def initialPalette : List QColor :=
  [QColor.rgb 0x6b 0xc2 0x60, QColor.rgb 0xce 0xbf 0x44, QColor.rgb 0xc8 0x4e 0x4e,
   QColor.rgb 0x00 0x00 0x00, QColor.rgb 0x1c 0x1c 0x1c, QColor.rgb 0x41 0x41 0x41,
   QColor.lighter (QColor.rgb 0x41 0x41 0x41) 120, QColor.rgb 0xd1 0xd1 0xd1,
   QColor.rgb 0xff 0xff 0xff, QColor.rgb 0xff 0x77 0x00,
   QColor.rgb 0x1c 0x1c 0x1c, QColor.rgb 0x2a 0x2a 0x2a, QColor.rgb 0x41 0x41 0x41,
   QColor.rgb 0x4e 0x4e 0x4e]

/-- `Style::themeColorColors`: the preset seed colors for the index overload. -/
def themeColorColors : List QColor :=
  [QColor.invalid, QColor.rgb 0x00 0x4a 0xa4, QColor.rgb 0x97 0xba 0x00,
   QColor.rgb 0xc2 0x37 0x16, QColor.rgb 0x46 0x17 0xb5]

/-- `Style::getColor`: direct indexed access into the palette array.  The
C++ has no bounds check (out-of-range access is undefined behavior); the
model totalizes with the invalid color, and every call the module itself
makes is in bounds. -/
def getColor (pal : List QColor) (entry : Nat) : QColor := pal.getD entry QColor.invalid

-- ## Mutable module state

/-- The mutable file-level globals of style.cpp gathered into one state. -/
structure StyleState where
  palette : List QColor
  dict : List (String × String)
  stylesheetsCache : List ((String × QFont) × String)
  existingImagesCache : List String
deriving DecidableEq

/-- The state at process start: initial palette, empty dictionary and
empty caches. -/
def initialState : StyleState := ⟨initialPalette, [], [], []⟩

/-- `QMap<QString, QString>` insert-or-update (`dict[key] = value`): the map
keeps its keys sorted by `QString` comparison. -/
def dictInsert : List (String × String) → String → String → List (String × String)
  | [], k, v => [(k, v)]
  | (k', v') :: rest, k, v =>
    if k = k' then (k, v) :: rest
    else if strLt k k' then (k, v) :: (k', v') :: rest
    else (k', v') :: dictInsert rest k v

-- ## Theme locator and fonts

/-- `Style::getThemeFolder`: the located per-user theme directory with a
trailing separator, or the built-in theme path when none is found. -/
def getThemeFolder (fs : FS) : String :=
  if fs.locateThemeFolder.isEmpty then BuiltinThemePath
  else fs.locateThemeFolder ++ "/"

/-- `Style::Font::ExtraBig` -/
def ExtraBig : Nat := 0
/-- `Style::Font::Big` -/
def Big : Nat := 1
/-- `Style::Font::BigBold` -/
def BigBold : Nat := 2
/-- `Style::Font::Medium` -/
def Medium : Nat := 3
/-- `Style::Font::MediumBold` -/
def MediumBold : Nat := 4
/-- `Style::Font::Small` -/
def Small : Nat := 5
/-- `Style::Font::SmallLight` -/
def SmallLight : Nat := 6

/-- `Style::getFont`: the fixed table of seven descriptors built from the
platform default pixel size (the `static` locals of the C++, which compute
once; the model reads the size from the environment record). -/
def getFont (fs : FS) (font : Nat) : QFont :=
  [appFont (fs.defaultPixelSize + 3) QFontBold,
   appFont (fs.defaultPixelSize + 1) QFontNormal,
   appFont (fs.defaultPixelSize + 1) QFontBold,
   appFont fs.defaultPixelSize QFontNormal,
   appFont fs.defaultPixelSize QFontBold,
   appFont (fs.defaultPixelSize - 1) QFontNormal,
   appFont (fs.defaultPixelSize - 1) QFontLight].getD font
    (appFont fs.defaultPixelSize QFontNormal)

-- ## Image resolver

/-- Result of `Style::getImagePath`: the resolved path (empty on failure),
the updated state and the warnings logged. -/
structure ImageOut where
  path : String
  state : StyleState
  warnings : List String
deriving DecidableEq

/-- The text of the first warning in style.cpp. -/
def warnOpen (p : String) : String := "Failed to open file (using defaults): " ++ p

/-- The text of the second warning in style.cpp. -/
def warnDefault (p : String) : String := "Failed to open default file: " ++ p

/-- `Style::getImagePath`: theme-folder candidate first (served from the
existence cache when present, cached on a filesystem hit), then the
built-in theme fallback (not cached), then empty. -/
def getImagePath (s : StyleState) (fs : FS) (filename : String) : ImageOut :=
  let fullPath := getThemeFolder fs ++ filename
  if memb fullPath s.existingImagesCache then ⟨fullPath, s, []⟩
  else if fs.fileExists fullPath then
    ⟨fullPath, { s with existingImagesCache := s.existingImagesCache ++ [fullPath] }, []⟩
  else
    let fullPath2 := BuiltinThemePath ++ filename
    if fs.fileExists fullPath2 then ⟨fullPath2, s, [warnOpen fullPath]⟩
    else ⟨"", s, [warnOpen fullPath, warnDefault fullPath2]⟩

-- ## Template resolver

/-- The placeholder dictionary built on first use, in `QMap` key order.
Values read the current palette, the font table and the caller's base font
(`QFontInfo(baseFont).pixelSize()` is the font's resolved pixel size). -/
def buildDict (fs : FS) (pal : List QColor) (baseFont : QFont) : List (String × String) :=
  [("@baseFont", "\x27" ++ baseFont.family ++ "\x27 " ++ toString baseFont.pixelSize ++ "px"),
   ("@big", qssifyFont (getFont fs Big)),
   ("@bigBold", qssifyFont (getFont fs BigBold)),
   ("@black", (getColor pal Black).name),
   ("@darkGrey", (getColor pal DarkGrey).name),
   ("@extraBig", qssifyFont (getFont fs ExtraBig)),
   ("@green", (getColor pal Green).name),
   ("@lightGrey", (getColor pal LightGrey).name),
   ("@medium", qssifyFont (getFont fs Medium)),
   ("@mediumBold", qssifyFont (getFont fs MediumBold)),
   ("@mediumGrey", (getColor pal MediumGrey).name),
   ("@mediumGreyLight", (getColor pal MediumGreyLight).name),
   ("@orange", (getColor pal Orange).name),
   ("@red", (getColor pal Red).name),
   ("@small", qssifyFont (getFont fs Small)),
   ("@smallLight", qssifyFont (getFont fs SmallLight)),
   ("@themeDark", (getColor pal ThemeDark).name),
   ("@themeLight", (getColor pal ThemeLight).name),
   ("@themeMedium", (getColor pal ThemeMedium).name),
   ("@themeMediumDark", (getColor pal ThemeMediumDark).name),
   ("@white", (getColor pal White).name),
   ("@yellow", (getColor pal Yellow).name)]

/-- The 22 recognized placeholder tokens, in dictionary order. -/
def dictKeys : List String :=
  ["@baseFont", "@big", "@bigBold", "@black", "@darkGrey", "@extraBig", "@green",
   "@lightGrey", "@medium", "@mediumBold", "@mediumGrey", "@mediumGreyLight",
   "@orange", "@red", "@small", "@smallLight", "@themeDark", "@themeLight",
   "@themeMedium", "@themeMediumDark", "@white", "@yellow"]

/-- The `for (key : dict.keys())` substitution loop: replace each token,
followed by a word boundary, with its value, in key order. -/
def tokenSubst (d : List (String × String)) (qss : String) : String :=
  d.foldl (fun acc kv => replaceWBs kv.1 kv.2 acc) qss

/-- The `@getImagePath()` while loop of `Style::resolve`.  `fullPath` is the
path of the template file being resolved (the loop's existence-cache test
reads this variable, not the image candidate path).  Processes the matches
found in the already token-substituted text, threading the text, the
image-existence cache and the warnings. -/
def imageLoop (fs : FS) (fullPath : String) :
    List String → String → List String → List String → String × List String × List String
  | [], qss, cache, warns => (qss, cache, warns)
  | arg :: rest, qss, cache, warns =>
    let phrase := "@getImagePath(" ++ arg ++ ")"
    let path := chop1 (replaceSubS "@getImagePath(" "" phrase)
    let fullImagePath := getThemeFolder fs ++ path
    if memb fullPath cache then
      imageLoop fs fullPath rest (replaceSubS phrase fullImagePath qss) cache warns
    else if fs.fileExists fullImagePath then
      imageLoop fs fullPath rest (replaceSubS phrase fullImagePath qss)
        (cache ++ [fullImagePath]) warns
    else
      imageLoop fs fullPath rest (replaceSubS phrase (BuiltinThemePath ++ path) qss) cache
        (warns ++ [warnOpen fullImagePath])

/-- Result of `Style::resolve`: the resolved text, the updated state and the
warnings logged. -/
structure ResolveOut where
  text : String
  state : StyleState
  warnings : List String
deriving DecidableEq

/-- The part of `Style::resolve` after a successful read: build the
dictionary when empty, substitute every token, then run the image loop. -/
def resolveBody (s : StyleState) (fs : FS) (fullPath qss0 : String) (baseFont : QFont)
    (warns : List String) : ResolveOut :=
  let d := if s.dict.isEmpty then buildDict fs s.palette baseFont else s.dict
  let qss1 := tokenSubst d qss0
  let out := imageLoop fs fullPath (findImageCallsS qss1) qss1 s.existingImagesCache warns
  ⟨out.1, { s with dict := d, existingImagesCache := out.2.1 }, out.2.2⟩

/-- `Style::resolve`: read the template under the theme folder; on failure
warn and try to open the built-in theme path itself (the directory path, not
the same filename under it); on a second failure warn again and return the
empty string. -/
def resolve (s : StyleState) (fs : FS) (filename : String) (baseFont : QFont) : ResolveOut :=
  let fullPath := getThemeFolder fs ++ filename
  match fs.files fullPath with
  | some qss0 => resolveBody s fs fullPath qss0 baseFont []
  | none =>
    match fs.files BuiltinThemePath with
    | some qss0 => resolveBody s fs BuiltinThemePath qss0 baseFont [warnOpen fullPath]
    | none => ⟨"", s, [warnOpen fullPath, warnDefault BuiltinThemePath]⟩

-- ## Stylesheet cache

/-- Lookup in the stylesheet cache (`std::map::find`). -/
def lookupSheet : List ((String × QFont) × String) → String × QFont → Option String
  | [], _ => none
  | (k, v) :: rest, key => if k = key then some v else lookupSheet rest key

/-- `std::map::insert`: inserts only when the key is absent. -/
def insertSheet (cache : List ((String × QFont) × String)) (key : String × QFont)
    (v : String) : List ((String × QFont) × String) :=
  match lookupSheet cache key with
  | some _ => cache
  | none => cache ++ [(key, v)]

/-- Result of `Style::getStylesheet`: the text, the updated state, whether
the template resolver ran (cache miss) and the warnings logged. -/
structure SheetOut where
  text : String
  state : StyleState
  resolved : Bool
  warnings : List String
deriving DecidableEq

/-- `Style::getStylesheet`: memoized by `(resolved full path, base font)`;
on a miss the resolver runs and its result is stored, empty or not. -/
def getStylesheet (s : StyleState) (fs : FS) (filename : String) (baseFont : QFont) :
    SheetOut :=
  let fullPath := getThemeFolder fs ++ filename
  match lookupSheet s.stylesheetsCache (fullPath, baseFont) with
  | some t => ⟨t, s, false, []⟩
  | none =>
    let r := resolve s fs filename baseFont
    ⟨r.text,
     { r.state with
        stylesheetsCache := insertSheet r.state.stylesheetsCache (fullPath, baseFont) r.text },
     true, r.warnings⟩

-- ## Theme color derivation

/-- `Style::setThemeColor(const QColor&)`: reset the four accent palette
slots to the defaults when the color is invalid, otherwise derive them from
the seed; then update the four dictionary entries in place.  This overload
does not touch the stylesheet cache. -/
def setThemeColorColor (s : StyleState) (color : QColor) : StyleState :=
  let pal :=
    if !color.valid then
      ((((s.palette.set ThemeDark (QColor.rgb 0x1c 0x1c 0x1c)).set ThemeMediumDark
          (QColor.rgb 0x2a 0x2a 0x2a)).set ThemeMedium
          (QColor.rgb 0x41 0x41 0x41)).set ThemeLight (QColor.rgb 0x4e 0x4e 0x4e))
    else
      ((((s.palette.set ThemeDark (QColor.darker color 155)).set ThemeMediumDark
          (QColor.darker color 135)).set ThemeMedium
          (QColor.darker color 120)).set ThemeLight (QColor.lighter color 110))
  let d1 := dictInsert s.dict "@themeDark" (getColor pal ThemeDark).name
  let d2 := dictInsert d1 "@themeMediumDark" (getColor pal ThemeMediumDark).name
  let d3 := dictInsert d2 "@themeMedium" (getColor pal ThemeMedium).name
  let d4 := dictInsert d3 "@themeLight" (getColor pal ThemeLight).name
  { s with palette := pal, dict := d4 }

/-- `Style::setThemeColor(int)`: clear the stylesheet cache, then delegate
to the color overload with the indexed preset, or with the invalid sentinel
when the index is out of range. -/
def setThemeColorInt (s : StyleState) (color : Int) : StyleState :=
  let s1 := { s with stylesheetsCache := [] }
  if color < 0 ∨ (themeColorColors.length : Int) ≤ color then
    setThemeColorColor s1 QColor.invalid
  else
    setThemeColorColor s1 (themeColorColors.getD color.toNat QColor.invalid)

end Style

namespace Style

-- ## Concrete environments and states for the instance theorems below

/-- A concrete base font. -/
def font0 : QFont := ⟨"Sans", 12, QFontNormal⟩

/-- Environment with no user theme, no readable files and no existing files. -/
def fsEmpty : FS := ⟨"", fun _ => none, fun _ => false, 12⟩

/-- A state with one cached stylesheet. -/
def cachedState : StyleState :=
  { initialState with stylesheetsCache := [((BuiltinThemePath ++ "a.css", font0), "OLD")] }

/-- Seed color `#004aa4` (the Blue preset). -/
def blueSeed : QColor := QColor.rgb 0x00 0x4a 0xa4

/-- Environment for the image-loop divergence: a user theme at `/t`, a
template referencing `img.png`, and the image present only under the
built-in theme. -/
def imgFS : FS :=
  ⟨"/t", fun p => if p = "/t/style.css" then some "@getImagePath(img.png)" else none,
   fun p => p == ":themes/default/img.png", 12⟩

/-- A state whose image-existence cache contains the template's own full
path, the key the image loop's cache test actually reads. -/
def imgState : StyleState :=
  { initialState with dict := [("@white", "#ffffff")], existingImagesCache := ["/t/style.css"] }

/-- Environment with a template that uses the `@green` token. -/
def greenFS : FS :=
  ⟨"", fun p => if p = ":themes/default/chat.css" then some "color: @green;" else none,
   fun _ => false, 12⟩

/-- Environment where `missing.css` is unreadable under the theme folder and
the built-in theme path itself is unreadable, while the built-in theme's own
copy of `missing.css` would be readable. -/
def missFS : FS :=
  ⟨"/t", fun p => if p = ":themes/default/missing.css" then some "BUILTIN COPY" else none,
   fun _ => false, 12⟩

/-- Environment for the image-path fallback cases: `a.png` exists under the
theme folder, `b.png` only under the built-in theme, `c.png` nowhere. -/
def imagesFS : FS :=
  ⟨"/t", fun _ => none, fun p => p == "/t/a.png" || p == ":themes/default/b.png", 12⟩

/-- Environment where `a.css` has become readable under the built-in theme
folder. -/
def laterFS : FS :=
  ⟨"", fun p => if p = ":themes/default/a.css" then some "NEW" else none, fun _ => false, 12⟩

/-- A template body that uses no recognized token and no image call. -/
def plainContent : String := "QWidget... color: rgb(12, 34, 56); border: none;"

/-- Environment serving the token-free template. -/
def plainFS : FS :=
  ⟨"", fun p => if p = ":themes/default/plain.css" then some plainContent else none,
   fun _ => false, 12⟩

end Style

-- ## Helper lemmas on the string machinery

/-- A token that occurs nowhere in the text is not substituted. -/
theorem replaceWBAux_noOccur (tok rep : List Char) :
    ∀ (fuel : Nat) (l : List Char), occursSub tok l = false →
      replaceWBAux tok rep fuel l = l := by
  intro fuel
  induction fuel with
  | zero => intro l _; cases l <;> rfl
  | succ n ih =>
    intro l h
    cases l with
    | nil => rfl
    | cons c cs =>
      simp only [occursSub, Bool.or_eq_false_iff] at h
      simp [replaceWBAux, h.1, ih cs h.2]

/-- Text without the literal `@getImagePath(` has no image-call match. -/
theorem findImageCallsAux_noOccur :
    ∀ (fuel : Nat) (l : List Char), occursSub imgTok l = false →
      findImageCallsAux fuel l = [] := by
  intro fuel
  induction fuel with
  | zero => intro l _; cases l <;> rfl
  | succ n ih =>
    intro l h
    cases l with
    | nil => rfl
    | cons c cs =>
      simp only [occursSub, Bool.or_eq_false_iff] at h
      simp [findImageCallsAux, h.1, ih cs h.2]

namespace Style

/-- Token substitution is the identity when no key occurs in the text. -/
theorem tokenSubst_noOccur (d : List (String × String)) :
    ∀ s : String, (∀ kv ∈ d, occursSubS kv.1 s = false) → tokenSubst d s = s := by
  induction d with
  | nil => intro s _; rfl
  | cons kv rest ih =>
    intro s h
    have h1 : replaceWBs kv.1 kv.2 s = s := by
      have hx := h kv (List.mem_cons_self kv rest)
      unfold replaceWBs
      rw [replaceWBAux_noOccur kv.1.data kv.2.data s.data.length s.data hx]
    have h2 : tokenSubst (kv :: rest) s = tokenSubst rest (replaceWBs kv.1 kv.2 s) := rfl
    rw [h2, h1]
    exact ih s fun kv' hm => h kv' (List.mem_cons_of_mem kv hm)

end Style

/-- `getD` after `set` at the same (in-range) index. -/
theorem getD_set_same {α : Type} :
    ∀ (l : List α) (i : Nat) (a d : α), i < l.length → (l.set i a).getD i d = a := by
  intro l
  induction l with
  | nil => intro i a d h; simp at h
  | cons x xs ih =>
    intro i a d h
    cases i with
    | zero => rfl
    | succ n =>
      show (xs.set n a).getD n d = a
      exact ih n a d (by simpa using h)

/-- `getD` after `set` at a larger index. -/
theorem getD_set_other {α : Type} :
    ∀ (l : List α) (i j : Nat) (a d : α), j < i → (l.set i a).getD j d = l.getD j d := by
  intro l
  induction l with
  | nil => intro i j a d _; rfl
  | cons x xs ih =>
    intro i j a d h
    cases i with
    | zero => omega
    | succ n =>
      cases j with
      | zero => rfl
      | succ m =>
        show (xs.set n a).getD m d = xs.getD m d
        exact ih n m a d (by omega)

namespace Style

/-- The four theme accent slots after the update chain of
`setThemeColorColor`, on any palette of the C++ array's length. -/
theorem accent_after_set (p : List QColor) (hp : p.length = 14) (a b c d : QColor) :
    getColor ((((p.set ThemeDark a).set ThemeMediumDark b).set ThemeMedium c).set ThemeLight d)
        ThemeDark = a ∧
    getColor ((((p.set ThemeDark a).set ThemeMediumDark b).set ThemeMedium c).set ThemeLight d)
        ThemeMediumDark = b ∧
    getColor ((((p.set ThemeDark a).set ThemeMediumDark b).set ThemeMedium c).set ThemeLight d)
        ThemeMedium = c ∧
    getColor ((((p.set ThemeDark a).set ThemeMediumDark b).set ThemeMedium c).set ThemeLight d)
        ThemeLight = d := by
  unfold getColor ThemeDark ThemeMediumDark ThemeMedium ThemeLight
  refine ⟨?_, ?_, ?_, ?_⟩
  · rw [getD_set_other _ 13 10 _ _ (by omega), getD_set_other _ 12 10 _ _ (by omega),
        getD_set_other _ 11 10 _ _ (by omega),
        getD_set_same _ 10 _ _ (by simp [hp])]
  · rw [getD_set_other _ 13 11 _ _ (by omega), getD_set_other _ 12 11 _ _ (by omega),
        getD_set_same _ 11 _ _ (by simp [hp])]
  · rw [getD_set_other _ 13 12 _ _ (by omega),
        getD_set_same _ 12 _ _ (by simp [List.length_set, hp])]
  · rw [getD_set_same _ 13 _ _ (by simp [List.length_set, hp])]

end Style

namespace Style

/-- Appending a fresh key to the cache makes it findable. -/
theorem lookupSheet_append (cache : List ((String × QFont) × String)) (k : String × QFont)
    (v : String) (h : lookupSheet cache k = none) :
    lookupSheet (cache ++ [(k, v)]) k = some v := by
  induction cache with
  | nil => simp [lookupSheet]
  | cons kv rest ih =>
    obtain ⟨k', v'⟩ := kv
    by_cases hk : k' = k
    · simp [lookupSheet, hk] at h
    · simp only [lookupSheet, List.cons_append, if_neg hk] at h ⊢
      exact ih h

/-- `std::map::insert` of a fresh key makes it findable. -/
theorem lookupSheet_insert (cache : List ((String × QFont) × String)) (k : String × QFont)
    (v : String) (h : lookupSheet cache k = none) :
    lookupSheet (insertSheet cache k v) k = some v := by
  unfold insertSheet
  rw [h]
  exact lookupSheet_append cache k v h

/-- `Style::resolve` never touches the stylesheet cache. -/
theorem resolve_sheets (s : StyleState) (fs : FS) (f : String) (bf : QFont) :
    (resolve s fs f bf).state.stylesheetsCache = s.stylesheetsCache := by
  simp only [resolve]
  split
  · simp [resolveBody]
  · split
    · simp [resolveBody]
    · rfl

/-- `Style::getStylesheet` on a cache hit. -/
theorem getStylesheet_hit (s : StyleState) (fs : FS) (f : String) (bf : QFont) (v : String)
    (h : lookupSheet s.stylesheetsCache (getThemeFolder fs ++ f, bf) = some v) :
    getStylesheet s fs f bf = ⟨v, s, false, []⟩ := by
  simp only [getStylesheet]
  rw [h]

/-- `Style::getStylesheet` on a cache miss. -/
theorem getStylesheet_miss (s : StyleState) (fs : FS) (f : String) (bf : QFont)
    (h : lookupSheet s.stylesheetsCache (getThemeFolder fs ++ f, bf) = none) :
    getStylesheet s fs f bf =
      ⟨(resolve s fs f bf).text,
       { (resolve s fs f bf).state with
          stylesheetsCache := insertSheet (resolve s fs f bf).state.stylesheetsCache
            (getThemeFolder fs ++ f, bf) (resolve s fs f bf).text },
       true, (resolve s fs f bf).warnings⟩ := by
  simp only [getStylesheet]
  rw [h]

/-- After any `getStylesheet` call, the key it used maps to the text it
returned. -/
theorem getStylesheet_caches (s : StyleState) (fs : FS) (f : String) (bf : QFont) :
    lookupSheet (getStylesheet s fs f bf).state.stylesheetsCache
      (getThemeFolder fs ++ f, bf) = some (getStylesheet s fs f bf).text := by
  cases h : lookupSheet s.stylesheetsCache (getThemeFolder fs ++ f, bf) with
  | some v => rw [getStylesheet_hit s fs f bf v h]; exact h
  | none =>
    rw [getStylesheet_miss s fs f bf h]
    exact lookupSheet_insert _ _ _ (by rw [resolve_sheets]; exact h)

/-- `Style::resolve` on a readable template none of whose current dictionary
keys occur in the text and with no image-call match: the text is returned
verbatim, the dictionary is built (when empty) and nothing else changes. -/
theorem resolve_noTokens (s : StyleState) (fs : FS) (f : String) (bf : QFont) (content : String)
    (hfile : fs.files (getThemeFolder fs ++ f) = some content)
    (hd : ∀ kv ∈ (if s.dict.isEmpty then buildDict fs s.palette bf else s.dict),
            occursSubS kv.1 content = false)
    (himg : findImageCallsS content = []) :
    resolve s fs f bf =
      ⟨content, { s with dict := if s.dict.isEmpty then buildDict fs s.palette bf else s.dict },
       []⟩ := by
  have hsub : tokenSubst (if s.dict.isEmpty then buildDict fs s.palette bf else s.dict)
      content = content := tokenSubst_noOccur _ content hd
  simp only [resolve]
  rw [hfile]
  simp only [resolveBody]
  rw [hsub, himg]
  rfl

end Style

-- ## Claim theorems

/-- Claim C1, counterexample: the claim says every call to either
`setThemeColor` overload clears the entire stylesheet cache.  The color
overload does not: from a state with a cached entry, calling it with the
Blue preset seed leaves the cache bit-for-bit unchanged, and the next
`getStylesheet` with the previously cached arguments is served from the
cache (the resolver does not run), returning the stale text. -/
theorem C1_counterexample_color_overload_keeps_cache :
    (Style.setThemeColorColor Style.cachedState Style.blueSeed).stylesheetsCache =
        Style.cachedState.stylesheetsCache ∧
    Style.cachedState.stylesheetsCache ≠ [] ∧
    (Style.getStylesheet (Style.setThemeColorColor Style.cachedState Style.blueSeed)
        Style.fsEmpty "a.css" Style.font0).text = "OLD" ∧
    (Style.getStylesheet (Style.setThemeColorColor Style.cachedState Style.blueSeed)
        Style.fsEmpty "a.css" Style.font0).resolved = false := by
  refine ⟨rfl, by decide, by decide, by decide⟩

/-- Claim C1, amended: only the index overload `setThemeColor(int)` clears
the stylesheet cache (unconditionally, before applying the color), so a
`getStylesheet` following it always re-resolves; the color overload
`setThemeColor(const QColor&)` leaves the stylesheet cache untouched. -/
theorem C1_amended_only_int_overload_clears :
    (∀ (s : Style.StyleState) (i : Int), (Style.setThemeColorInt s i).stylesheetsCache = []) ∧
    (∀ (s : Style.StyleState) (c : QColor),
        (Style.setThemeColorColor s c).stylesheetsCache = s.stylesheetsCache) ∧
    (∀ (s : Style.StyleState) (i : Int) (fs : FS) (f : String) (bf : QFont),
        (Style.getStylesheet (Style.setThemeColorInt s i) fs f bf).resolved = true) := by
  have hint : ∀ (s : Style.StyleState) (i : Int),
      (Style.setThemeColorInt s i).stylesheetsCache = [] := by
    intro s i
    simp only [Style.setThemeColorInt]
    split <;> rfl
  refine ⟨hint, fun s c => rfl, ?_⟩
  intro s i fs f bf
  rw [Style.getStylesheet_miss _ _ _ _ (by rw [hint]; rfl)]

/-- Claim C2, code evaluation at the failing input: the image loop's
existence-cache test reads the template's own full path (`fullPath`), not
the image candidate path, contradicting the loop's `image not in cache`
comment and the claim.  With the template's path in the cache and
`img.png` absent from the theme but present in the built-in theme, the
code substitutes the nonexistent theme-relative path `/t/img.png` and
skips the built-in fallback and the existence check entirely. -/
theorem C2_cache_test_reads_template_path :
    Style.imgFS.fileExists "/t/img.png" = false ∧
    Style.imgFS.fileExists (BuiltinThemePath ++ "img.png") = true ∧
    memb "/t/style.css" Style.imgState.existingImagesCache = true ∧
    (Style.resolve Style.imgState Style.imgFS "style.css" Style.font0).text = "/t/img.png" ∧
    (Style.resolve Style.imgState Style.imgFS "style.css"
        Style.font0).state.existingImagesCache = Style.imgState.existingImagesCache := by
  refine ⟨rfl, by decide, by decide, by decide, by decide⟩

/-- Claim C4: when the template under the theme folder cannot be opened and
the built-in theme path itself (a directory path, not the template's name
under the built-in theme) cannot be opened either, `resolve` logs exactly
the two warnings and returns the empty string; no error is raised. -/
theorem C4_resolve_double_fallback (s : Style.StyleState) (fs : FS) (f : String) (bf : QFont)
    (h1 : fs.files (Style.getThemeFolder fs ++ f) = none)
    (h2 : fs.files BuiltinThemePath = none) :
    Style.resolve s fs f bf =
      ⟨"", s, [Style.warnOpen (Style.getThemeFolder fs ++ f),
               Style.warnDefault BuiltinThemePath]⟩ := by
  simp only [Style.resolve]
  rw [h1, h2]

/-- Witness for C4: `missing.css` is unreadable under the theme folder `/t/`
and the built-in theme path is unreadable, so `resolve` returns the empty
string with the two warnings — even though the built-in theme's own copy of
`missing.css` is readable in this environment, showing that the second open
really targets the directory path itself. -/
theorem C4_witness :
    Style.missFS.files ":themes/default/missing.css" = some "BUILTIN COPY" ∧
    Style.resolve Style.initialState Style.missFS "missing.css" Style.font0 =
      ⟨"", Style.initialState,
       [Style.warnOpen "/t/missing.css", Style.warnDefault ":themes/default/"]⟩ := by
  refine ⟨rfl, ?_⟩
  exact C4_resolve_double_fallback Style.initialState Style.missFS "missing.css" Style.font0
    rfl rfl

/-- Claim C5: for a filename not yet in the existence cache, `getImagePath`
returns the theme-folder path and appends it to the cache when it exists
there; returns the built-in path without touching the cache when only the
built-in copy exists; and returns the empty string leaving the cache
unchanged when neither exists. -/
theorem C5_getImagePath_cases (s : Style.StyleState) (fs : FS) (filename : String)
    (hnc : memb (Style.getThemeFolder fs ++ filename) s.existingImagesCache = false) :
    (fs.fileExists (Style.getThemeFolder fs ++ filename) = true →
      Style.getImagePath s fs filename =
        ⟨Style.getThemeFolder fs ++ filename,
         { s with existingImagesCache :=
             s.existingImagesCache ++ [Style.getThemeFolder fs ++ filename] }, []⟩) ∧
    (fs.fileExists (Style.getThemeFolder fs ++ filename) = false →
      fs.fileExists (BuiltinThemePath ++ filename) = true →
      Style.getImagePath s fs filename =
        ⟨BuiltinThemePath ++ filename, s,
         [Style.warnOpen (Style.getThemeFolder fs ++ filename)]⟩) ∧
    (fs.fileExists (Style.getThemeFolder fs ++ filename) = false →
      fs.fileExists (BuiltinThemePath ++ filename) = false →
      Style.getImagePath s fs filename =
        ⟨"", s, [Style.warnOpen (Style.getThemeFolder fs ++ filename),
                 Style.warnDefault (BuiltinThemePath ++ filename)]⟩) := by
  refine ⟨fun h1 => ?_, fun h1 h2 => ?_, fun h1 h2 => ?_⟩
  · simp [Style.getImagePath, hnc, h1]
  · simp [Style.getImagePath, hnc, h1, h2]
  · simp [Style.getImagePath, hnc, h1, h2]

/-- Witness for C5: `a.png` exists under the theme folder (returned and
cached), `b.png` only under the built-in theme (returned, not cached),
`c.png` nowhere (empty result, cache unchanged). -/
theorem C5_witness :
    Style.getImagePath Style.initialState Style.imagesFS "a.png" =
      ⟨"/t/a.png", { Style.initialState with existingImagesCache := ["/t/a.png"] }, []⟩ ∧
    Style.getImagePath Style.initialState Style.imagesFS "b.png" =
      ⟨":themes/default/b.png", Style.initialState, [Style.warnOpen "/t/b.png"]⟩ ∧
    Style.getImagePath Style.initialState Style.imagesFS "c.png" =
      ⟨"", Style.initialState,
       [Style.warnOpen "/t/c.png", Style.warnDefault ":themes/default/c.png"]⟩ := by
  refine ⟨?_, ?_, ?_⟩
  · exact (C5_getImagePath_cases Style.initialState Style.imagesFS "a.png" rfl).1 rfl
  · exact (C5_getImagePath_cases Style.initialState Style.imagesFS "b.png" rfl).2.1 rfl rfl
  · exact (C5_getImagePath_cases Style.initialState Style.imagesFS "c.png" rfl).2.2 rfl rfl

/-- Claim C6: the invalid sentinel color always resets the four accent
palette slots to the fixed default hex constants, regardless of prior
state, and the index overload with an out-of-range index (negative or at
least the preset list's size, 5) is the same as clearing the cache and
passing the invalid sentinel — no error. -/
theorem C6_sentinel_reset_and_out_of_range (s : Style.StyleState)
    (hp : s.palette.length = 14) (i : Int) (hout : i < 0 ∨ 5 ≤ i) :
    (Style.getColor (Style.setThemeColorColor s QColor.invalid).palette Style.ThemeDark =
        QColor.rgb 0x1c 0x1c 0x1c ∧
     Style.getColor (Style.setThemeColorColor s QColor.invalid).palette Style.ThemeMediumDark =
        QColor.rgb 0x2a 0x2a 0x2a ∧
     Style.getColor (Style.setThemeColorColor s QColor.invalid).palette Style.ThemeMedium =
        QColor.rgb 0x41 0x41 0x41 ∧
     Style.getColor (Style.setThemeColorColor s QColor.invalid).palette Style.ThemeLight =
        QColor.rgb 0x4e 0x4e 0x4e) ∧
    Style.setThemeColorInt s i =
      Style.setThemeColorColor { s with stylesheetsCache := [] } QColor.invalid := by
  constructor
  · have h := Style.accent_after_set s.palette hp (QColor.rgb 0x1c 0x1c 0x1c)
      (QColor.rgb 0x2a 0x2a 0x2a) (QColor.rgb 0x41 0x41 0x41) (QColor.rgb 0x4e 0x4e 0x4e)
    simpa [Style.setThemeColorColor, QColor.invalid] using h
  · simp only [Style.setThemeColorInt]
    rw [if_pos (by simpa [Style.themeColorColors] using hout)]

/-- Witness for C6 at a concrete state and index 99. -/
theorem C6_witness :
    Style.getColor (Style.setThemeColorColor Style.cachedState QColor.invalid).palette
        Style.ThemeDark = QColor.rgb 0x1c 0x1c 0x1c ∧
    Style.setThemeColorInt Style.cachedState 99 =
      Style.setThemeColorColor { Style.cachedState with stylesheetsCache := [] }
        QColor.invalid := by
  have h := C6_sentinel_reset_and_out_of_range Style.cachedState (by decide) 99 (by omega)
  exact ⟨h.1.1, h.2⟩

/-- Claim C7: for every valid seed color, `setThemeColor(color)` sets the
four accent slots to exactly `darker 155`, `darker 135`, `darker 120` and
`lighter 110` of the seed; the accents depend only on the seed, so two
calls from any two prior states (in particular repeated calls with the
same seed) produce identical accent colors. -/
theorem C7_accent_derivation (s1 s2 : Style.StyleState) (c : QColor) (hv : c.valid = true)
    (hp1 : s1.palette.length = 14) (hp2 : s2.palette.length = 14) :
    (Style.getColor (Style.setThemeColorColor s1 c).palette Style.ThemeDark =
        QColor.darker c 155 ∧
     Style.getColor (Style.setThemeColorColor s1 c).palette Style.ThemeMediumDark =
        QColor.darker c 135 ∧
     Style.getColor (Style.setThemeColorColor s1 c).palette Style.ThemeMedium =
        QColor.darker c 120 ∧
     Style.getColor (Style.setThemeColorColor s1 c).palette Style.ThemeLight =
        QColor.lighter c 110) ∧
    (Style.getColor (Style.setThemeColorColor s1 c).palette Style.ThemeDark =
        Style.getColor (Style.setThemeColorColor s2 c).palette Style.ThemeDark ∧
     Style.getColor (Style.setThemeColorColor s1 c).palette Style.ThemeMediumDark =
        Style.getColor (Style.setThemeColorColor s2 c).palette Style.ThemeMediumDark ∧
     Style.getColor (Style.setThemeColorColor s1 c).palette Style.ThemeMedium =
        Style.getColor (Style.setThemeColorColor s2 c).palette Style.ThemeMedium ∧
     Style.getColor (Style.setThemeColorColor s1 c).palette Style.ThemeLight =
        Style.getColor (Style.setThemeColorColor s2 c).palette Style.ThemeLight) := by
  have key : ∀ (s : Style.StyleState), s.palette.length = 14 →
      Style.getColor (Style.setThemeColorColor s c).palette Style.ThemeDark =
          QColor.darker c 155 ∧
      Style.getColor (Style.setThemeColorColor s c).palette Style.ThemeMediumDark =
          QColor.darker c 135 ∧
      Style.getColor (Style.setThemeColorColor s c).palette Style.ThemeMedium =
          QColor.darker c 120 ∧
      Style.getColor (Style.setThemeColorColor s c).palette Style.ThemeLight =
          QColor.lighter c 110 := by
    intro s hp
    have h := Style.accent_after_set s.palette hp (QColor.darker c 155) (QColor.darker c 135)
      (QColor.darker c 120) (QColor.lighter c 110)
    simpa [Style.setThemeColorColor, hv] using h
  have k1 := key s1 hp1
  have k2 := key s2 hp2
  exact ⟨k1, k1.1.trans k2.1.symm, k1.2.1.trans k2.2.1.symm,
         k1.2.2.1.trans k2.2.2.1.symm, k1.2.2.2.trans k2.2.2.2.symm⟩

/-- Witness for C7 at the Blue preset seed and two distinct prior states. -/
theorem C7_witness :
    Style.getColor (Style.setThemeColorColor Style.initialState Style.blueSeed).palette
        Style.ThemeDark = QColor.darker Style.blueSeed 155 ∧
    Style.getColor (Style.setThemeColorColor Style.initialState Style.blueSeed).palette
        Style.ThemeLight =
      Style.getColor (Style.setThemeColorColor Style.cachedState Style.blueSeed).palette
        Style.ThemeLight := by
  have h := C7_accent_derivation Style.initialState Style.cachedState Style.blueSeed
    (by decide) (by decide) (by decide)
  exact ⟨h.1.1, h.2.2.2.2⟩

/-- Claim C3: calling either `setThemeColor` overload before the first
`resolve` populates the empty dictionary with exactly the four theme-accent
keys; and since `resolve` only builds the dictionary when it is empty,
every later `resolve` leaves the dictionary unchanged and substitutes only
its keys — a readable template free of the four accent tokens and image
calls (it may use `@green`, font tokens or `@baseFont`) is returned
verbatim. -/
theorem C3_premature_setThemeColor_locks_dict :
    (∀ c : QColor, (Style.setThemeColorColor Style.initialState c).dict.map Prod.fst =
        ["@themeDark", "@themeLight", "@themeMedium", "@themeMediumDark"]) ∧
    (∀ i : Int, (Style.setThemeColorInt Style.initialState i).dict.map Prod.fst =
        ["@themeDark", "@themeLight", "@themeMedium", "@themeMediumDark"]) ∧
    (∀ (s : Style.StyleState) (fs : FS) (f : String) (bf : QFont) (content : String),
        s.dict.isEmpty = false →
        fs.files (Style.getThemeFolder fs ++ f) = some content →
        (∀ kv ∈ s.dict, occursSubS kv.1 content = false) →
        findImageCallsS content = [] →
        Style.resolve s fs f bf = ⟨content, s, []⟩) := by
  refine ⟨fun c => rfl, fun i => ?_, ?_⟩
  · simp only [Style.setThemeColorInt]
    split <;> rfl
  · intro s fs f bf content hne hfile hocc himg
    have hif : (if s.dict.isEmpty then Style.buildDict fs s.palette bf else s.dict) =
        s.dict := by
      simp [hne]
    have h2 := Style.resolve_noTokens s fs f bf content hfile (by rw [hif]; exact hocc) himg
    rw [h2, hif]

/-- Witness for C3: after `setThemeColor(QColor())` from the initial state,
the dictionary holds only the four accent keys, and resolving a template
whose body is `color: @green;` returns it verbatim — the recognized
`@green` token is no longer substituted. -/
theorem C3_witness :
    (Style.setThemeColorColor Style.initialState QColor.invalid).dict.map Prod.fst =
      ["@themeDark", "@themeLight", "@themeMedium", "@themeMediumDark"] ∧
    Style.resolve (Style.setThemeColorColor Style.initialState QColor.invalid) Style.greenFS
        "chat.css" Style.font0 =
      ⟨"color: @green;", Style.setThemeColorColor Style.initialState QColor.invalid, []⟩ := by
  refine ⟨C3_premature_setThemeColor_locks_dict.1 QColor.invalid, ?_⟩
  exact C3_premature_setThemeColor_locks_dict.2.2
    (Style.setThemeColorColor Style.initialState QColor.invalid) Style.greenFS "chat.css"
    Style.font0 "color: @green;" (by decide) rfl (by decide) (by decide)

/-- Claim C8: two consecutive `getStylesheet` calls with the same filename
and font (no intervening `setThemeColor`) return equal text, the second
served from the cache without running the resolver and leaving the state
untouched; and on a miss the first call returns exactly what `resolve`
returns and stores it under the key (resolved full path, font). -/
theorem C8_consecutive_getStylesheet (s : Style.StyleState) (fs : FS) (f : String)
    (bf : QFont) :
    ((Style.getStylesheet (Style.getStylesheet s fs f bf).state fs f bf).text =
        (Style.getStylesheet s fs f bf).text ∧
     (Style.getStylesheet (Style.getStylesheet s fs f bf).state fs f bf).resolved = false ∧
     (Style.getStylesheet (Style.getStylesheet s fs f bf).state fs f bf).state =
        (Style.getStylesheet s fs f bf).state) ∧
    (Style.lookupSheet s.stylesheetsCache (Style.getThemeFolder fs ++ f, bf) = none →
     (Style.getStylesheet s fs f bf).text = (Style.resolve s fs f bf).text ∧
     (Style.getStylesheet s fs f bf).resolved = true ∧
     Style.lookupSheet (Style.getStylesheet s fs f bf).state.stylesheetsCache
        (Style.getThemeFolder fs ++ f, bf) = some ((Style.resolve s fs f bf).text)) := by
  have hc := Style.getStylesheet_caches s fs f bf
  constructor
  · rw [Style.getStylesheet_hit _ fs f bf _ hc]
    exact ⟨rfl, rfl, rfl⟩
  · intro h
    rw [Style.getStylesheet_miss s fs f bf h]
    refine ⟨rfl, rfl, ?_⟩
    exact Style.lookupSheet_insert _ _ _ (by rw [Style.resolve_sheets]; exact h)

/-- Witness for C8: from the initial state in an empty environment the first
call misses (storing the resolver's empty result) and the second call
returns the same text from the cache without resolving. -/
theorem C8_witness :
    Style.lookupSheet Style.initialState.stylesheetsCache
      (Style.getThemeFolder Style.fsEmpty ++ "a.css", Style.font0) = none ∧
    (Style.getStylesheet Style.initialState Style.fsEmpty "a.css" Style.font0).text =
      (Style.resolve Style.initialState Style.fsEmpty "a.css" Style.font0).text ∧
    (Style.getStylesheet
        (Style.getStylesheet Style.initialState Style.fsEmpty "a.css" Style.font0).state
        Style.fsEmpty "a.css" Style.font0).text =
      (Style.getStylesheet Style.initialState Style.fsEmpty "a.css" Style.font0).text ∧
    (Style.getStylesheet
        (Style.getStylesheet Style.initialState Style.fsEmpty "a.css" Style.font0).state
        Style.fsEmpty "a.css" Style.font0).resolved = false := by
  have h := C8_consecutive_getStylesheet Style.initialState Style.fsEmpty "a.css" Style.font0
  exact ⟨rfl, (h.2 rfl).1, h.1.1, h.1.2.1⟩

/-- Claim C9: a readable template containing none of the 22 recognized
tokens and no image-call match resolves, with the dictionary not yet built,
to text byte-identical to its source content. -/
theorem C9_token_free_template_identity (s : Style.StyleState) (fs : FS) (f : String)
    (bf : QFont) (content : String)
    (hempty : s.dict.isEmpty = true)
    (hfile : fs.files (Style.getThemeFolder fs ++ f) = some content)
    (hocc : ∀ k ∈ Style.dictKeys, occursSubS k content = false)
    (himg : findImageCallsS content = []) :
    (Style.resolve s fs f bf).text = content := by
  have hif : (if s.dict.isEmpty then Style.buildDict fs s.palette bf else s.dict) =
      Style.buildDict fs s.palette bf := by simp [hempty]
  have hmap : (Style.buildDict fs s.palette bf).map Prod.fst = Style.dictKeys := rfl
  have hkv : ∀ kv ∈ Style.buildDict fs s.palette bf, occursSubS kv.1 content = false := by
    intro kv hm
    refine hocc kv.1 ?_
    rw [← hmap]
    exact List.mem_map_of_mem Prod.fst hm
  rw [Style.resolve_noTokens s fs f bf content hfile (by rw [hif]; exact hkv) himg]

/-- Witness for C9: a concrete token-free template body comes back
byte-identical. -/
theorem C9_witness :
    (∀ k ∈ Style.dictKeys, occursSubS k Style.plainContent = false) ∧
    (Style.resolve Style.initialState Style.plainFS "plain.css" Style.font0).text =
      Style.plainContent := by
  refine ⟨by decide, ?_⟩
  exact C9_token_free_template_identity Style.initialState Style.plainFS "plain.css"
    Style.font0 Style.plainContent rfl rfl (by decide) (by decide)

/-- Claim C10: a `getStylesheet` miss stores the resolved text even when it
is the empty string; any stored entry is returned unchanged (with the state
untouched and the resolver not run) by every later `getStylesheet` with the
same key, in any environment with the same theme folder — so also once the
formerly-missing template has become readable; and the cache is cleared by
`setThemeColor(int)`. -/
theorem C10_cache_persistence :
    (∀ (s : Style.StyleState) (fs : FS) (f : String) (bf : QFont),
       Style.lookupSheet s.stylesheetsCache (Style.getThemeFolder fs ++ f, bf) = none →
       Style.lookupSheet (Style.getStylesheet s fs f bf).state.stylesheetsCache
          (Style.getThemeFolder fs ++ f, bf) = some ((Style.resolve s fs f bf).text)) ∧
    (∀ (s : Style.StyleState) (fs fs' : FS) (f : String) (bf : QFont) (v : String),
       Style.getThemeFolder fs' = Style.getThemeFolder fs →
       Style.lookupSheet s.stylesheetsCache (Style.getThemeFolder fs ++ f, bf) = some v →
       Style.getStylesheet s fs' f bf = ⟨v, s, false, []⟩) ∧
    (∀ (s : Style.StyleState) (i : Int), (Style.setThemeColorInt s i).stylesheetsCache = []) := by
  refine ⟨?_, ?_, ?_⟩
  · intro s fs f bf h
    rw [Style.getStylesheet_miss s fs f bf h]
    exact Style.lookupSheet_insert _ _ _ (by rw [Style.resolve_sheets]; exact h)
  · intro s fs fs' f bf v hsame h
    exact Style.getStylesheet_hit s fs' f bf v (by rw [hsame]; exact h)
  · intro s i
    simp only [Style.setThemeColorInt]
    split <;> rfl

/-- Witness for C10: resolution of `a.css` fails in the empty environment
(empty string), the empty string is cached, and after the file becomes
readable (environment `laterFS`, same theme folder) the call still returns
the cached empty string. -/
theorem C10_witness :
    (Style.resolve Style.initialState Style.fsEmpty "a.css" Style.font0).text = "" ∧
    Style.lookupSheet (Style.getStylesheet Style.initialState Style.fsEmpty "a.css"
        Style.font0).state.stylesheetsCache
      (Style.getThemeFolder Style.fsEmpty ++ "a.css", Style.font0) = some "" ∧
    Style.laterFS.files ":themes/default/a.css" = some "NEW" ∧
    (Style.getStylesheet (Style.getStylesheet Style.initialState Style.fsEmpty "a.css"
        Style.font0).state Style.laterFS "a.css" Style.font0).text = "" := by
  have h1 := C10_cache_persistence.1 Style.initialState Style.fsEmpty "a.css" Style.font0 rfl
  have htext : (Style.resolve Style.initialState Style.fsEmpty "a.css" Style.font0).text =
      "" := rfl
  rw [htext] at h1
  have h2 := C10_cache_persistence.2.1
    (Style.getStylesheet Style.initialState Style.fsEmpty "a.css" Style.font0).state
    Style.fsEmpty Style.laterFS "a.css" Style.font0 "" rfl h1
  exact ⟨rfl, h1, rfl, by rw [h2]⟩
